import Mathlib

/-
Verification of `src/morfi/parsing.py`: the per-game header extraction
(`parse_game` / `HeadersData`) and the batch loading loop (`parse_pgn`),
together with the CSV emission step of the command-line entry point `_main`.

The external PGN reader (`chess.pgn.read_game`) is treated as a pull-based
source of parsed game objects; a finite source is modelled as a `List Game`,
with end-of-stream corresponding to the end of the list.  All record-level
behaviour (pydantic field validation, the loop's per-record error recovery,
progress printing, output ordering, and the pandas CSV shape) is modelled
explicitly below, following the Python source line by line.
-/

set_option autoImplicit false

namespace Morfi

/-- Raw PGN headers as produced by `chess.pgn`: a finite key/value mapping with
string keys and string values, modelled as an association list (first match
wins, as in a Python mapping with distinct keys). -/
structure RawHeaders where
  entries : List (String × String)
deriving DecidableEq, Repr

/-- Python `headers.get(key)`: the value stored under `key`, or `none` when the
key is absent. -/
def RawHeaders.get (h : RawHeaders) (k : String) : Option String :=
  (h.entries.find? fun p => p.1 == k).map Prod.snd

/-- A parsed game object as returned by `chess.pgn.read_game`; `parse_game`
only ever touches its `headers` attribute, so only that attribute is
modelled. -/
structure Game where
  headers : RawHeaders
deriving DecidableEq, Repr

/-- Leading and trailing whitespace removal, as done by Python `int(str)`
before parsing the digits. -/
def stripWhitespace (cs : List Char) : List Char :=
  ((cs.dropWhile Char.isWhitespace).reverse.dropWhile Char.isWhitespace).reverse

/-- Continuation of a digit run after an initial digit: further digits, with
single underscores allowed between digits (Python numeric-literal grouping
accepted by `int(str)`). -/
def digitRunRest : List Char → Bool
  | [] => true
  | '_' :: c :: cs => c.isDigit && digitRunRest cs
  | '_' :: [] => false
  | c :: cs => c.isDigit && digitRunRest cs

/-- A non-empty run of ASCII decimal digits, with single underscores allowed
between digits. -/
def digitRun : List Char → Bool
  | [] => false
  | c :: cs => c.isDigit && digitRunRest cs

/-- Numeric value of a digit run, ignoring underscore separators. -/
def natOfDigits (cs : List Char) : Nat :=
  cs.foldl (fun a c => if c == '_' then a else 10 * a + (c.toNat - 48)) 0

/-- Models the integer coercion pydantic v1 applies to a string field declared
`int` (it calls Python `int(s)`): surrounding whitespace is ignored, an
optional single ASCII sign is allowed, and the remainder must be a non-empty
run of decimal digits (single underscores between digits allowed).  Returns
`none` when `int(s)` would raise `ValueError`. -/
def coerceInt (s : String) : Option Int :=
  match stripWhitespace s.toList with
  | '+' :: rest => if digitRun rest then some (natOfDigits rest : Int) else none
  | '-' :: rest => if digitRun rest then some (-(natOfDigits rest : Int)) else none
  | cs => if digitRun cs then some (natOfDigits cs : Int) else none

/-- The `HeadersData` pydantic model: a fixed-shape record of fourteen fields,
in the declaration order of the Python class. -/
structure HeadersData where
  event_name : String
  result : String
  termination : String
  time_control : String
  date : String
  time : String
  white_name : String
  white_title : Option String
  white_elo : Int
  white_elo_diff : Option Int
  black_name : String
  black_title : Option String
  black_elo : Int
  black_elo_diff : Option Int
deriving DecidableEq, Repr

/-- Pydantic v1 validation of a required `str` field: `None` (an absent header)
is rejected, any string passes unchanged. -/
def validateReqStr (v : Option String) : Except String String :=
  match v with
  | none => Except.error "none is not an allowed value"
  | some s => Except.ok s

/-- Pydantic v1 validation of a required `int` field fed a header value:
absent is rejected, a present string must coerce via `int(s)`. -/
def validateReqInt (v : Option String) : Except String Int :=
  match v with
  | none => Except.error "none is not an allowed value"
  | some s =>
    match coerceInt s with
    | some n => Except.ok n
    | none => Except.error "value is not a valid integer"

/-- Pydantic v1 validation of an `Optional[int]` field: absent is valid (no
value), a present string must coerce via `int(s)`. -/
def validateOptInt (v : Option String) : Except String (Option Int) :=
  match v with
  | none => Except.ok none
  | some s =>
    match coerceInt s with
    | some n => Except.ok (some n)
    | none => Except.error "value is not a valid integer"

/-- One entry of a pydantic `ValidationError`: the failing field's name and
the error message. -/
abbrev FieldError := String × String

/-- The payload of a pydantic `ValidationError`: the list of per-field errors,
in field declaration order. -/
abbrev ValError := List FieldError

/-- The contribution of one field's validation outcome to a
`ValidationError`. -/
def errOf {α : Type} (fieldName : String) (r : Except String α) : ValError :=
  match r with
  | Except.error m => [(fieldName, m)]
  | Except.ok _ => []

/-- All per-field validation errors collected by pydantic for one
`HeadersData(...)` call, in field declaration order.  The two
`Optional[str]` fields (`white_title`, `black_title`) never produce an
error and are omitted. -/
def fieldErrors (event_name result termination time_control date time
    white_name white_elo white_elo_diff
    black_name black_elo black_elo_diff : Option String) : ValError :=
  errOf "event_name" (validateReqStr event_name) ++
  errOf "result" (validateReqStr result) ++
  errOf "termination" (validateReqStr termination) ++
  errOf "time_control" (validateReqStr time_control) ++
  errOf "date" (validateReqStr date) ++
  errOf "time" (validateReqStr time) ++
  errOf "white_name" (validateReqStr white_name) ++
  errOf "white_elo" (validateReqInt white_elo) ++
  errOf "white_elo_diff" (validateOptInt white_elo_diff) ++
  errOf "black_name" (validateReqStr black_name) ++
  errOf "black_elo" (validateReqInt black_elo) ++
  errOf "black_elo_diff" (validateOptInt black_elo_diff)

/-- Constructing `HeadersData(...)` with the fourteen keyword arguments (each
an optional header value, since `headers.get` yields `None` for an absent
key).  Pydantic validates every field and either returns the record or raises
one `ValidationError` carrying all field errors; construction is
all-or-nothing. -/
def HeadersData.build (event_name result termination time_control date time
    white_name white_title white_elo white_elo_diff
    black_name black_title black_elo black_elo_diff : Option String) :
    Except ValError HeadersData :=
  match validateReqStr event_name, validateReqStr result, validateReqStr termination,
      validateReqStr time_control, validateReqStr date, validateReqStr time,
      validateReqStr white_name, validateReqInt white_elo, validateOptInt white_elo_diff,
      validateReqStr black_name, validateReqInt black_elo, validateOptInt black_elo_diff with
  | Except.ok en, Except.ok rs, Except.ok tm, Except.ok tc, Except.ok da, Except.ok ti,
      Except.ok wn, Except.ok we, Except.ok wd, Except.ok bn, Except.ok be, Except.ok bd =>
    Except.ok
      { event_name := en, result := rs, termination := tm, time_control := tc,
        date := da, time := ti,
        white_name := wn, white_title := white_title,
        white_elo := we, white_elo_diff := wd,
        black_name := bn, black_title := black_title,
        black_elo := be, black_elo_diff := bd }
  | _, _, _, _, _, _, _, _, _, _, _, _ =>
    Except.error (fieldErrors event_name result termination time_control date time
      white_name white_elo white_elo_diff black_name black_elo black_elo_diff)

/-- `parse_game(game)`: reads the named header fields off `game.headers` and
builds a `HeadersData`; an exception raised by pydantic is modelled as the
`Except.error` branch. -/
def parse_game (game : Game) : Except ValError HeadersData :=
  HeadersData.build
    (game.headers.get "Event") (game.headers.get "Result")
    (game.headers.get "Termination") (game.headers.get "TimeControl")
    (game.headers.get "UTCDate") (game.headers.get "UTCTime")
    (game.headers.get "White") (game.headers.get "WhiteTitle")
    (game.headers.get "WhiteElo") (game.headers.get "WhiteRatingDiff")
    (game.headers.get "Black") (game.headers.get "BlackTitle")
    (game.headers.get "BlackElo") (game.headers.get "BlackRatingDiff")

/-- Everything one run of the `parse_pgn` loop produces or consumes:
the three accumulated lists returned to the caller, the progress
observations printed on the way (each one the loop counter at the moment of
printing), the number of games obtained from the source, and the number of
`read_game` calls made. -/
structure LoopOut where
  games : List HeadersData
  damaged_headers : List RawHeaders
  exceptions : List ValError
  observations : List Nat
  pulled : Nat
  reads : Nat
deriving DecidableEq, Repr

/-- The body of `parse_pgn`: `for i in range(max_games)` with `fuel`
iterations remaining and current loop counter `i`.  Each iteration first
prints a progress line when `i % report_each == 1`, then calls
`chess.pgn.read_game`; a `None` result breaks the loop, otherwise
`parse_game` is attempted and its outcome appended to the good list or to
the damaged/exception lists. -/
def parse_pgnLoop (source : List Game) (fuel i report_each : Nat) : LoopOut :=
  match fuel with
  | 0 => ⟨[], [], [], [], 0, 0⟩
  | fuel' + 1 =>
    let obs : List Nat := if i % report_each == 1 then [i] else []
    match source with
    | [] => ⟨[], [], [], obs, 0, 1⟩
    | g :: rest =>
      let out := parse_pgnLoop rest fuel' (i + 1) report_each
      match parse_game g with
      | Except.ok r =>
        ⟨r :: out.games, out.damaged_headers, out.exceptions,
          obs ++ out.observations, out.pulled + 1, out.reads + 1⟩
      | Except.error e =>
        ⟨out.games, g.headers :: out.damaged_headers, e :: out.exceptions,
          obs ++ out.observations, out.pulled + 1, out.reads + 1⟩

/-- Default of the `max_games` parameter, `int(1e18)` (the float `1e18` is
exactly the integer `10 ^ 18`). -/
def max_games_default : Int := 10 ^ 18

/-- Default of the `report_each` parameter. -/
def report_each_default : Nat := 10000

/-- `parse_pgn(filepath, max_games, report_each)` restricted to its return
contract: the triple of parsed records, damaged raw headers, and the
exceptions paired with them.  `max_games` is an `Int` because the Python
parameter is a (possibly negative) `int`; `range(max_games)` is empty for
any non-positive value, which `Int.toNat` reproduces. -/
def parse_pgn (source : List Game) (max_games : Int) (report_each : Nat) :
    List HeadersData × List RawHeaders × List ValError :=
  let out := parse_pgnLoop source max_games.toNat 0 report_each
  (out.games, out.damaged_headers, out.exceptions)

/-- The contribution of one pulled game to the good list. -/
def goodOf (g : Game) : Option HeadersData :=
  (parse_game g).toOption

/-- The contribution of one pulled game to the damaged-headers list. -/
def damagedOf (g : Game) : Option RawHeaders :=
  match parse_game g with
  | Except.ok _ => none
  | Except.error _ => some g.headers

/-- The contribution of one pulled game to the exceptions list. -/
def causeOf (g : Game) : Option ValError :=
  match parse_game g with
  | Except.ok _ => none
  | Except.error e => some e

/-- Number of games obtained from the source by one `parse_pgn` run (a
`read_game` call returning `None` obtains no game). -/
def pulledCount (source : List Game) (max_games : Int) (report_each : Nat) : Nat :=
  (parse_pgnLoop source max_games.toNat 0 report_each).pulled

/-- Number of `read_game` calls made by one `parse_pgn` run. -/
def readsCount (source : List Game) (max_games : Int) (report_each : Nat) : Nat :=
  (parse_pgnLoop source max_games.toNat 0 report_each).reads

/-- The progress counts printed by one `parse_pgn` run, in order. -/
def observationsOf (source : List Game) (max_games : Int) (report_each : Nat) : List Nat :=
  (parse_pgnLoop source max_games.toNat 0 report_each).observations

/-- A raw header mapping lacks one of the ten fields that `HeadersData`
declares as required (the eight required strings and the two required
Elo integers). -/
def missingRequiredField (h : RawHeaders) : Prop :=
  h.get "Event" = none ∨ h.get "Result" = none ∨ h.get "Termination" = none ∨
  h.get "TimeControl" = none ∨ h.get "UTCDate" = none ∨ h.get "UTCTime" = none ∨
  h.get "White" = none ∨ h.get "Black" = none ∨
  h.get "WhiteElo" = none ∨ h.get "BlackElo" = none

/-- A raw header mapping carries a value for one of the four integer fields
that fails integer coercion. -/
def coercionFailure (h : RawHeaders) : Prop :=
  (∃ s, h.get "WhiteElo" = some s ∧ coerceInt s = none) ∨
  (∃ s, h.get "BlackElo" = some s ∧ coerceInt s = none) ∨
  (∃ s, h.get "WhiteRatingDiff" = some s ∧ coerceInt s = none) ∨
  (∃ s, h.get "BlackRatingDiff" = some s ∧ coerceInt s = none)

/-- Whether an optional header value would pass integer coercion were it
required: absent fails, present must coerce. -/
def coercesInt (v : Option String) : Bool :=
  match v with
  | none => false
  | some s => (coerceInt s).isSome

/-- Decidable check that a raw header mapping contains every required field
with a value of valid type: the eight required string fields are present
(any string is a valid `str`) and the two required Elo fields are present
and coerce to integers. -/
def requiredFieldsTyped (h : RawHeaders) : Bool :=
  (h.get "Event").isSome && (h.get "Result").isSome && (h.get "Termination").isSome &&
  (h.get "TimeControl").isSome && (h.get "UTCDate").isSome && (h.get "UTCTime").isSome &&
  (h.get "White").isSome && (h.get "Black").isSome &&
  coercesInt (h.get "WhiteElo") && coercesInt (h.get "BlackElo")

/-- Models the Python attribute assignment `record.white_elo = v` on a
constructed record.  `HeadersData` subclasses `pydantic.BaseModel` with the
default configuration (no `allow_mutation = False`, no frozen config), so
assignment to a field of an existing instance is permitted and replaces the
stored value. -/
def HeadersData.assignWhiteElo (r : HeadersData) (v : Int) : HeadersData :=
  { r with white_elo := v }

/-- The fourteen column names of the output table, i.e. the keys of
`HeadersData.dict()` in field declaration order (pydantic v1 `dict()`
preserves declaration order). -/
def headersDataColumns : List String :=
  ["event_name", "result", "termination", "time_control", "date", "time",
   "white_name", "white_title", "white_elo", "white_elo_diff",
   "black_name", "black_title", "black_elo", "black_elo_diff"]

/-- The columns of `pd.DataFrame(map(lambda x: x.dict(), games))`: pandas
infers the columns from the record dictionaries, so with zero records the
frame has no columns at all. -/
def dataFrameColumns (records : List HeadersData) : List String :=
  match records with
  | [] => []
  | _ :: _ => headersDataColumns

/-- Rendering of an optional string cell: a missing value becomes an empty
field in the CSV. -/
def csvCellOptStr (v : Option String) : String :=
  match v with
  | none => ""
  | some s => s

/-- Rendering of an optional integer cell.  (When a column mixes integers
with missing values pandas stores it as floats and prints e.g. `5.0`; that
formatting detail is not modelled — no claim below depends on the text of a
data cell, only on the header line and the number of rows.) -/
def csvCellOptInt (v : Option Int) : String :=
  match v with
  | none => ""
  | some n => toString n

/-- One data row of the CSV, the record's fourteen values in column order.
(CSV quoting of delimiter characters inside values is not modelled; no claim
below depends on the text of a data cell.) -/
def csvRow (r : HeadersData) : String :=
  String.intercalate ","
    [r.event_name, r.result, r.termination, r.time_control, r.date, r.time,
     r.white_name, csvCellOptStr r.white_title, toString r.white_elo,
     csvCellOptInt r.white_elo_diff,
     r.black_name, csvCellOptStr r.black_title, toString r.black_elo,
     csvCellOptInt r.black_elo_diff]

/-- The lines of the file written by `df.to_csv(path, index=False)`: the
header line (the comma-joined column names, which for an empty frame is the
empty line) followed by one row per record, with no index column. -/
def to_csvLines (records : List HeadersData) : List String :=
  String.intercalate "," (dataFrameColumns records) :: records.map csvRow

/-- The content of the output file written by the command-line entry point
`_main` for a given game source and `--max-games` value: the CSV lines of
the good records returned by `parse_pgn` (which `_main` calls with the
default `report_each`). -/
def mainCsvLines (source : List Game) (max_games : Int) : List String :=
  to_csvLines (parse_pgn source max_games report_each_default).1

/-- Concrete well-formed raw headers (with the optional `BlackTitle` absent),
used as evaluation inputs for the theorems below. -/
def sampleGoodHeaders : RawHeaders :=
  ⟨[("Event", "Rated Blitz game"), ("Result", "1-0"), ("Termination", "Normal"),
    ("TimeControl", "300+0"), ("UTCDate", "2024.01.01"), ("UTCTime", "12:00:00"),
    ("White", "alice"), ("WhiteTitle", "GM"), ("WhiteElo", "1500"),
    ("WhiteRatingDiff", "+5"),
    ("Black", "bob"), ("BlackElo", "1400"), ("BlackRatingDiff", "-5")]⟩

/-- The game carrying `sampleGoodHeaders`. -/
def sampleGoodGame : Game := ⟨sampleGoodHeaders⟩

/-- The record `parse_game` extracts from `sampleGoodHeaders`. -/
def sampleRecord : HeadersData :=
  { event_name := "Rated Blitz game", result := "1-0", termination := "Normal",
    time_control := "300+0", date := "2024.01.01", time := "12:00:00",
    white_name := "alice", white_title := some "GM",
    white_elo := 1500, white_elo_diff := some 5,
    black_name := "bob", black_title := none,
    black_elo := 1400, black_elo_diff := some (-5) }

/-- Concrete damaged raw headers: the required `Event` field is absent, every
other field is present and well typed. -/
def sampleBadHeaders : RawHeaders :=
  ⟨[("Result", "1-0"), ("Termination", "Normal"),
    ("TimeControl", "300+0"), ("UTCDate", "2024.01.01"), ("UTCTime", "12:00:00"),
    ("White", "alice"), ("WhiteElo", "1500"),
    ("Black", "bob"), ("BlackElo", "1400")]⟩

/-- The game carrying `sampleBadHeaders`. -/
def sampleBadGame : Game := ⟨sampleBadHeaders⟩

/-- Raw headers in which every required field is present and well typed but
the optional `WhiteRatingDiff` field carries a non-numeric value. -/
def badOptionalHeaders : RawHeaders :=
  ⟨[("Event", "Rated Blitz game"), ("Result", "1-0"), ("Termination", "Normal"),
    ("TimeControl", "300+0"), ("UTCDate", "2024.01.01"), ("UTCTime", "12:00:00"),
    ("White", "alice"), ("WhiteElo", "1500"), ("WhiteRatingDiff", "NA"),
    ("Black", "bob"), ("BlackElo", "1400")]⟩

deriving instance DecidableEq for Except

/-- A successful `HeadersData` construction means every fallible field
validator succeeded (pydantic construction is all-or-nothing). -/
theorem build_ok_inv (a1 a2 a3 a4 a5 a6 a7 a8 a9 a10 a11 a12 a13 a14 : Option String)
    (r : HeadersData)
    (h : HeadersData.build a1 a2 a3 a4 a5 a6 a7 a8 a9 a10 a11 a12 a13 a14 = Except.ok r) :
    (validateReqStr a1).isOk = true ∧ (validateReqStr a2).isOk = true ∧
    (validateReqStr a3).isOk = true ∧ (validateReqStr a4).isOk = true ∧
    (validateReqStr a5).isOk = true ∧ (validateReqStr a6).isOk = true ∧
    (validateReqStr a7).isOk = true ∧ (validateReqInt a9).isOk = true ∧
    (validateOptInt a10).isOk = true ∧ (validateReqStr a11).isOk = true ∧
    (validateReqInt a13).isOk = true ∧ (validateOptInt a14).isOk = true := by
  unfold HeadersData.build at h
  split at h
  · simp_all [Except.isOk, Except.toBool]
  · exact absurd h (by simp)

/-- A game whose raw headers miss a required field, or carry a value that
fails integer coercion, makes `parse_game` raise a validation error. -/
theorem parse_game_error_of_bad (g : Game)
    (hbad : missingRequiredField g.headers ∨ coercionFailure g.headers) :
    ∃ e, parse_game g = Except.error e := by
  cases hpg : parse_game g with
  | error e => exact ⟨e, rfl⟩
  | ok r =>
    exfalso
    unfold parse_game at hpg
    obtain ⟨h1, h2, h3, h4, h5, h6, h7, h8, h9, h10, h11, h12⟩ :=
      build_ok_inv _ _ _ _ _ _ _ _ _ _ _ _ _ _ r hpg
    rcases hbad with hmiss | hcoerce
    · rcases hmiss with hc | hc | hc | hc | hc | hc | hc | hc | hc | hc
      · rw [hc] at h1; simp [validateReqStr, Except.isOk, Except.toBool] at h1
      · rw [hc] at h2; simp [validateReqStr, Except.isOk, Except.toBool] at h2
      · rw [hc] at h3; simp [validateReqStr, Except.isOk, Except.toBool] at h3
      · rw [hc] at h4; simp [validateReqStr, Except.isOk, Except.toBool] at h4
      · rw [hc] at h5; simp [validateReqStr, Except.isOk, Except.toBool] at h5
      · rw [hc] at h6; simp [validateReqStr, Except.isOk, Except.toBool] at h6
      · rw [hc] at h7; simp [validateReqStr, Except.isOk, Except.toBool] at h7
      · rw [hc] at h10; simp [validateReqStr, Except.isOk, Except.toBool] at h10
      · rw [hc] at h8; simp [validateReqInt, Except.isOk, Except.toBool] at h8
      · rw [hc] at h11; simp [validateReqInt, Except.isOk, Except.toBool] at h11
    · rcases hcoerce with ⟨s, hs, hcs⟩ | ⟨s, hs, hcs⟩ | ⟨s, hs, hcs⟩ | ⟨s, hs, hcs⟩
      · rw [hs] at h8; simp [validateReqInt, hcs, Except.isOk, Except.toBool] at h8
      · rw [hs] at h11; simp [validateReqInt, hcs, Except.isOk, Except.toBool] at h11
      · rw [hs] at h9; simp [validateOptInt, hcs, Except.isOk, Except.toBool] at h9
      · rw [hs] at h12; simp [validateOptInt, hcs, Except.isOk, Except.toBool] at h12

/-- The three lists accumulated by the loop are the per-game contributions of
the games taken from the source, in arrival order. -/
theorem parse_pgnLoop_lists (source : List Game) (fuel i re : Nat) :
    (parse_pgnLoop source fuel i re).games = (source.take fuel).filterMap goodOf ∧
    (parse_pgnLoop source fuel i re).damaged_headers
      = (source.take fuel).filterMap damagedOf ∧
    (parse_pgnLoop source fuel i re).exceptions = (source.take fuel).filterMap causeOf := by
  induction fuel generalizing source i with
  | zero => simp [parse_pgnLoop]
  | succ fuel ih =>
    cases source with
    | nil => simp [parse_pgnLoop]
    | cons g rest =>
      have hrec := ih rest (i + 1)
      cases hpg : parse_game g <;>
        simp [parse_pgnLoop, hpg, goodOf, damagedOf, causeOf, Except.toOption,
          hrec.1, hrec.2.1, hrec.2.2]

/-- The loop obtains games from the source one at a time until the source or
the fuel runs out, whichever happens first. -/
theorem parse_pgnLoop_pulled (source : List Game) (fuel i re : Nat) :
    (parse_pgnLoop source fuel i re).pulled = min fuel source.length := by
  induction fuel generalizing source i with
  | zero => simp [parse_pgnLoop]
  | succ fuel ih =>
    cases source with
    | nil => simp [parse_pgnLoop]
    | cons g rest =>
      have hrec := ih rest (i + 1)
      cases hpg : parse_game g <;> simp [parse_pgnLoop, hpg, hrec] <;> omega

/-- The loop calls `read_game` once per iteration entered: `min` of the fuel
and one past the source length (the final call observes end-of-stream). -/
theorem parse_pgnLoop_reads (source : List Game) (fuel i re : Nat) :
    (parse_pgnLoop source fuel i re).reads = min fuel (source.length + 1) := by
  induction fuel generalizing source i with
  | zero => simp [parse_pgnLoop]
  | succ fuel ih =>
    cases source with
    | nil => simp [parse_pgnLoop]
    | cons g rest =>
      have hrec := ih rest (i + 1)
      cases hpg : parse_game g <;> simp [parse_pgnLoop, hpg, hrec] <;> omega

/-- The progress counts printed by the loop: among the loop counters of the
iterations entered, exactly those congruent to 1 modulo `report_each`, in
increasing order. -/
theorem parse_pgnLoop_observations (source : List Game) (fuel i re : Nat) :
    (parse_pgnLoop source fuel i re).observations
      = (List.range' i (min fuel (source.length + 1))).filter (fun n => n % re == 1) := by
  induction fuel generalizing source i with
  | zero => simp [parse_pgnLoop]
  | succ fuel ih =>
    cases source with
    | nil =>
      have hmin : min (fuel + 1) (List.length ([] : List Game) + 1) = 1 := by simp
      cases hip : (i % re == 1) <;>
        simp [parse_pgnLoop, hip, hmin, List.range', List.filter_cons]
    | cons g rest =>
      have hrec := ih rest (i + 1)
      cases hpg : parse_game g <;> cases hip : (i % re == 1) <;>
        simp [parse_pgnLoop, hpg, hip, hrec] <;>
        rw [show min (fuel + 1) (rest.length + 1 + 1) = min fuel (rest.length + 1) + 1 by omega,
          List.range'_succ, List.filter_cons] <;>
        simp [hip]

/-- The `parse_pgn` return triple, characterised game by game: each list is
the in-order contribution of the games taken from the source (at most
`max_games` of them). -/
theorem parse_pgn_eq_filterMap (source : List Game) (mg : Int) (re : Nat) :
    parse_pgn source mg re =
      ((source.take mg.toNat).filterMap goodOf,
       (source.take mg.toNat).filterMap damagedOf,
       (source.take mg.toNat).filterMap causeOf) := by
  have h := parse_pgnLoop_lists source mg.toNat 0 re
  simp [parse_pgn, h.1, h.2.1, h.2.2]

/-- Every pulled game lands in exactly one of the good list and the damaged
list, and each damaged entry is paired with exactly one exception. -/
theorem filterMap_contributions_length (l : List Game) :
    (l.filterMap goodOf).length + (l.filterMap damagedOf).length = l.length ∧
    (l.filterMap damagedOf).length = (l.filterMap causeOf).length := by
  induction l with
  | nil => simp
  | cons g rest ih =>
    cases hpg : parse_game g <;>
      simp [goodOf, damagedOf, causeOf, hpg, Except.toOption] <;> omega

/-- An empty source yields three empty lists for any cap. -/
theorem parse_pgn_nil (mg : Int) (re : Nat) :
    parse_pgn ([] : List Game) mg re = ([], [], []) := by
  cases hn : mg.toNat <;> simp [parse_pgn, parse_pgnLoop, hn]

/-- Claim C1: a pulled game whose raw header mapping misses a required field
or carries a value failing integer coercion makes the record mapper
(`parse_game`) fail; the batch loader puts the game's original raw headers
into the damaged list and the failure cause into the exceptions list, the
game yields no record in the good list, and the batch is not aborted — the
good list is still exactly the in-order successful parses of all pulled
games. -/
theorem C1_mapping_failure_recovered (source : List Game) (mg : Int) (re : Nat)
    (g : Game) (hmem : g ∈ source.take mg.toNat)
    (hbad : missingRequiredField g.headers ∨ coercionFailure g.headers) :
    (∃ e, parse_game g = Except.error e ∧
      g.headers ∈ (parse_pgn source mg re).2.1 ∧ e ∈ (parse_pgn source mg re).2.2) ∧
    (¬ ∃ r, parse_game g = Except.ok r) ∧
    (parse_pgn source mg re).1 = (source.take mg.toNat).filterMap goodOf := by
  obtain ⟨e, he⟩ := parse_game_error_of_bad g hbad
  have hchar := parse_pgn_eq_filterMap source mg re
  refine ⟨⟨e, he, ?_, ?_⟩, ?_, ?_⟩
  · rw [hchar]
    exact List.mem_filterMap.mpr ⟨g, hmem, by simp [damagedOf, he]⟩
  · rw [hchar]
    exact List.mem_filterMap.mpr ⟨g, hmem, by simp [causeOf, he]⟩
  · rintro ⟨r, hr⟩
    rw [he] at hr
    exact Except.noConfusion hr
  · rw [hchar]

/-- Witness for C1 at a concrete two-game source whose second game misses the
required Event header. -/
theorem C1_witness :
    (∃ e, parse_game sampleBadGame = Except.error e ∧
      sampleBadGame.headers ∈ (parse_pgn [sampleGoodGame, sampleBadGame] 5 10000).2.1 ∧
      e ∈ (parse_pgn [sampleGoodGame, sampleBadGame] 5 10000).2.2) ∧
    (¬ ∃ r, parse_game sampleBadGame = Except.ok r) ∧
    (parse_pgn [sampleGoodGame, sampleBadGame] 5 10000).1 =
      ([sampleGoodGame, sampleBadGame].take (5 : Int).toNat).filterMap goodOf :=
  C1_mapping_failure_recovered [sampleGoodGame, sampleBadGame] 5 10000 sampleBadGame
    (by decide) (Or.inl (show missingRequiredField sampleBadGame.headers from
      Or.inl (by decide)))

/-- Claim C2: for every source and cap, the good and damaged lists partition
the pulled games, and the damaged and cause lists have equal length. -/
theorem C2_output_lengths (source : List Game) (mg : Int) (re : Nat) :
    (parse_pgn source mg re).1.length + (parse_pgn source mg re).2.1.length
      = pulledCount source mg re ∧
    (parse_pgn source mg re).2.1.length = (parse_pgn source mg re).2.2.length := by
  have hchar := parse_pgn_eq_filterMap source mg re
  have hlen := filterMap_contributions_length (source.take mg.toNat)
  have hp : pulledCount source mg re = min mg.toNat source.length := by
    unfold pulledCount
    rw [parse_pgnLoop_pulled]
  constructor
  · simp [hchar, hp, hlen.1, List.length_take]
  · simp [hchar, hlen.2]

/-- Claim C3: the loader pulls one game at a time and stops exactly at source
exhaustion or at the cap, whichever comes first (the number of games pulled
is the minimum of the cap and the source length); a cap of N on a source of
at least N games pulls exactly N games; a cap of zero returns three empty
sequences without a single read; an empty source returns three empty
sequences. -/
theorem C3_stop_conditions :
    (∀ (source : List Game) (mg : Int) (re : Nat),
      pulledCount source mg re = min mg.toNat source.length) ∧
    (∀ (source : List Game) (mg : Int) (re : Nat), mg.toNat ≤ source.length →
      pulledCount source mg re = mg.toNat) ∧
    (∀ (source : List Game) (re : Nat),
      parse_pgn source 0 re = ([], [], []) ∧ readsCount source 0 re = 0) ∧
    (∀ (mg : Int) (re : Nat), parse_pgn ([] : List Game) mg re = ([], [], [])) := by
  have hp : ∀ (source : List Game) (mg : Int) (re : Nat),
      pulledCount source mg re = min mg.toNat source.length := by
    intro source mg re
    unfold pulledCount
    rw [parse_pgnLoop_pulled]
  refine ⟨hp, ?_, ?_, fun mg re => parse_pgn_nil mg re⟩
  · intro source mg re hle
    rw [hp]
    omega
  · intro source re
    constructor
    · simp [parse_pgn, parse_pgnLoop]
    · simp [readsCount, parse_pgnLoop]

/-- Witness for C3: a cap of 1 on a two-game source pulls exactly one game,
and a cap of 0 yields empty output. -/
theorem C3_witness :
    pulledCount [sampleGoodGame, sampleBadGame] 1 10000 = (1 : Int).toNat ∧
    parse_pgn [sampleGoodGame, sampleBadGame] 0 10000 = ([], [], []) :=
  ⟨C3_stop_conditions.2.1 [sampleGoodGame, sampleBadGame] 1 10000 (by decide),
   (C3_stop_conditions.2.2.1 [sampleGoodGame, sampleBadGame] 10000).1⟩

/-- Claim C5: all three output sequences follow input arrival order — each is
the in-order per-game contribution of the pulled games — and in particular a
three-game input whose second game fails mapping yields good = [record 1,
record 3], damaged = [headers 2], causes = [cause 2]. -/
theorem C5_ordering :
    (∀ (source : List Game) (mg : Int) (re : Nat),
      parse_pgn source mg re =
        ((source.take mg.toNat).filterMap goodOf,
         (source.take mg.toNat).filterMap damagedOf,
         (source.take mg.toNat).filterMap causeOf)) ∧
    (∀ (g1 g2 g3 : Game) (r1 r3 : HeadersData) (e2 : ValError) (mg : Int) (re : Nat),
      3 ≤ mg.toNat →
      parse_game g1 = Except.ok r1 → parse_game g2 = Except.error e2 →
      parse_game g3 = Except.ok r3 →
      parse_pgn [g1, g2, g3] mg re = ([r1, r3], [g2.headers], [e2])) := by
  refine ⟨parse_pgn_eq_filterMap, ?_⟩
  intro g1 g2 g3 r1 r3 e2 mg re hmg h1 h2 h3
  rw [parse_pgn_eq_filterMap]
  rw [List.take_of_length_le (by simpa using hmg)]
  simp [goodOf, damagedOf, causeOf, h1, h2, h3, Except.toOption]

/-- Witness for C5 at a concrete three-game source whose middle game misses
the required Event header. -/
theorem C5_witness :
    parse_pgn [sampleGoodGame, sampleBadGame, sampleGoodGame] 3 10000 =
      ([sampleRecord, sampleRecord], [sampleBadHeaders],
       [[("event_name", "none is not an allowed value")]]) :=
  C5_ordering.2 sampleGoodGame sampleBadGame sampleGoodGame sampleRecord sampleRecord
    [("event_name", "none is not an allowed value")] 3 10000
    (by decide) (by decide) (by decide) (by decide)

/-- Claim C6: the progress side channel. The reporting interval defaults to
10000; the three returned sequences do not depend on the reporting interval
at all (the emission is a pure side effect); and the counts emitted are
exactly the loop counters congruent to 1 modulo the interval among the
iterations entered, in order — one emission every `report_each` games. -/
theorem C6_progress_reporting :
    report_each_default = 10000 ∧
    (∀ (source : List Game) (mg : Int) (re1 re2 : Nat),
      parse_pgn source mg re1 = parse_pgn source mg re2) ∧
    (∀ (source : List Game) (mg : Int) (re : Nat),
      observationsOf source mg re =
        (List.range (readsCount source mg re)).filter (fun n => n % re == 1)) := by
  refine ⟨rfl, ?_, ?_⟩
  · intro source mg re1 re2
    rw [parse_pgn_eq_filterMap, parse_pgn_eq_filterMap]
  · intro source mg re
    unfold observationsOf readsCount
    rw [parse_pgnLoop_observations, parse_pgnLoop_reads, List.range_eq_range']

/-- Claim C10: a negative cap behaves like a cap of zero — three empty
sequences and not a single read from the source. -/
theorem C10_negative_cap (source : List Game) (mg : Int) (re : Nat) (h : mg < 0) :
    parse_pgn source mg re = ([], [], []) ∧ readsCount source mg re = 0 := by
  have h0 : mg.toNat = 0 := Int.toNat_of_nonpos (le_of_lt h)
  constructor
  · simp [parse_pgn, h0, parse_pgnLoop]
  · simp [readsCount, h0, parse_pgnLoop]

/-- Witness for C10 at a concrete negative cap. -/
theorem C10_witness :
    parse_pgn [sampleGoodGame] (-7) 10000 = ([], [], []) ∧
    readsCount [sampleGoodGame] (-7) 10000 = 0 :=
  C10_negative_cap [sampleGoodGame] (-7) 10000 (by decide)

/-- Counterexample to claim C4 as stated: `badOptionalHeaders` contains every
required field with a value of valid type, yet the record mapper fails,
because the optional `WhiteRatingDiff` field is present with a non-numeric
value (pydantic rejects a present-but-invalid optional integer). -/
theorem C4_counterexample :
    requiredFieldsTyped badOptionalHeaders = true ∧
    parse_game ⟨badOptionalHeaders⟩ =
      Except.error [("white_elo_diff", "value is not a valid integer")] := by
  constructor
  · decide
  · decide

/-- Claim C4 as amended: for a raw header mapping containing every required
field with a value of valid type, and in which any present optional integer
field also coerces, `parse_game` succeeds and the resulting record's
fourteen fields match the input header values — string fields verbatim,
integer fields as the coerced value of the header string, optional fields as
the present value or no-value. -/
theorem C4_happy_path (h : RawHeaders)
    (ev rs tm tc da ti wn bn wes bes : String) (wei bei : Int)
    (hev : h.get "Event" = some ev)
    (hrs : h.get "Result" = some rs)
    (htm : h.get "Termination" = some tm)
    (htc : h.get "TimeControl" = some tc)
    (hda : h.get "UTCDate" = some da)
    (hti : h.get "UTCTime" = some ti)
    (hwn : h.get "White" = some wn)
    (hbn : h.get "Black" = some bn)
    (hwe : h.get "WhiteElo" = some wes)
    (hwei : coerceInt wes = some wei)
    (hbe : h.get "BlackElo" = some bes)
    (hbei : coerceInt bes = some bei)
    (hwd : Option.all (fun s => (coerceInt s).isSome) (h.get "WhiteRatingDiff") = true)
    (hbd : Option.all (fun s => (coerceInt s).isSome) (h.get "BlackRatingDiff") = true) :
    parse_game ⟨h⟩ = Except.ok
      { event_name := ev, result := rs, termination := tm, time_control := tc,
        date := da, time := ti,
        white_name := wn, white_title := h.get "WhiteTitle",
        white_elo := wei, white_elo_diff := (h.get "WhiteRatingDiff").bind coerceInt,
        black_name := bn, black_title := h.get "BlackTitle",
        black_elo := bei, black_elo_diff := (h.get "BlackRatingDiff").bind coerceInt } := by
  have hwdv : validateOptInt (h.get "WhiteRatingDiff")
      = Except.ok ((h.get "WhiteRatingDiff").bind coerceInt) := by
    cases hv : h.get "WhiteRatingDiff" with
    | none => simp [validateOptInt]
    | some s =>
      rw [hv] at hwd
      simp only [Option.all] at hwd
      obtain ⟨n, hn⟩ := Option.isSome_iff_exists.mp hwd
      simp [validateOptInt, hn]
  have hbdv : validateOptInt (h.get "BlackRatingDiff")
      = Except.ok ((h.get "BlackRatingDiff").bind coerceInt) := by
    cases hv : h.get "BlackRatingDiff" with
    | none => simp [validateOptInt]
    | some s =>
      rw [hv] at hbd
      simp only [Option.all] at hbd
      obtain ⟨n, hn⟩ := Option.isSome_iff_exists.mp hbd
      simp [validateOptInt, hn]
  simp [parse_game, HeadersData.build, hev, hrs, htm, htc, hda, hti, hwn, hbn,
    hwe, hbe, validateReqStr, validateReqInt, hwei, hbei, hwdv, hbdv]

/-- Witness for the amended C4 at a concrete fully valid header mapping. -/
theorem C4_witness :
    parse_game sampleGoodGame = Except.ok sampleRecord :=
  C4_happy_path sampleGoodHeaders "Rated Blitz game" "1-0" "Normal" "300+0"
    "2024.01.01" "12:00:00" "alice" "bob" "1500" "1400" 1500 1400
    (by decide) (by decide) (by decide) (by decide) (by decide) (by decide)
    (by decide) (by decide) (by decide) (by decide) (by decide) (by decide)
    (by decide) (by decide)

/-- Counterexample to claim C7 as stated: with an input source yielding zero
games, the file the command-line path writes consists of a single empty line
— pandas infers the columns from the records, so zero records leave no
columns — not of the fourteen-field header row. -/
theorem C7_counterexample :
    mainCsvLines [] max_games_default = [""] ∧
    String.intercalate "," headersDataColumns ≠ "" ∧
    mainCsvLines [] max_games_default ≠ [String.intercalate "," headersDataColumns] := by
  have h0 := parse_pgn_nil max_games_default report_each_default
  have h1 : mainCsvLines [] max_games_default = [""] := by
    have hi : String.intercalate "," ([] : List String) = "" := by decide
    simp [mainCsvLines, h0, to_csvLines, dataFrameColumns, hi]
  have h2 : String.intercalate "," headersDataColumns ≠ "" := by decide
  refine ⟨h1, h2, ?_⟩
  rw [h1]
  intro hc
  simp only [List.cons.injEq, and_true] at hc
  exact h2 hc.symm

/-- Claim C7 as amended: with zero games the output file is a single empty
line (no header row); as soon as at least one record was mapped, the file is
the header row listing the fourteen fields of the data model in declaration
order, followed by one row per record, with no index column. -/
theorem C7_csv_shape :
    (∀ mg : Int, mainCsvLines [] mg = [""]) ∧
    (∀ (r : HeadersData) (rs : List HeadersData),
      to_csvLines (r :: rs) =
        String.intercalate "," headersDataColumns :: (r :: rs).map csvRow) ∧
    headersDataColumns.length = 14 := by
  refine ⟨?_, fun r rs => rfl, rfl⟩
  intro mg
  have hi : String.intercalate "," ([] : List String) = "" := by decide
  simp [mainCsvLines, parse_pgn_nil mg report_each_default, to_csvLines, dataFrameColumns, hi]

/-- Counterexample to claim C8 as stated: attribute assignment is an
operation that changes a field of a constructed record — `HeadersData` keeps
pydantic's default mutable configuration, so `record.white_elo = 0` is
permitted and replaces the stored rating. -/
theorem C8_counterexample :
    (HeadersData.assignWhiteElo sampleRecord 0).white_elo ≠ sampleRecord.white_elo ∧
    HeadersData.assignWhiteElo sampleRecord 0 ≠ sampleRecord := by
  constructor
  · decide
  · decide

/-- Claim C8 as amended: a HeaderRecord is not immutable — the model class
keeps pydantic's default mutable configuration, so assigning to a field
after construction is permitted; the assignment stores the new value in the
assigned field and leaves the other thirteen fields unchanged. -/
theorem C8_assignment_mutates (r : HeadersData) (v : Int) :
    (r.assignWhiteElo v).white_elo = v ∧
    (r.assignWhiteElo v).event_name = r.event_name ∧
    (r.assignWhiteElo v).result = r.result ∧
    (r.assignWhiteElo v).termination = r.termination ∧
    (r.assignWhiteElo v).time_control = r.time_control ∧
    (r.assignWhiteElo v).date = r.date ∧
    (r.assignWhiteElo v).time = r.time ∧
    (r.assignWhiteElo v).white_name = r.white_name ∧
    (r.assignWhiteElo v).white_title = r.white_title ∧
    (r.assignWhiteElo v).white_elo_diff = r.white_elo_diff ∧
    (r.assignWhiteElo v).black_name = r.black_name ∧
    (r.assignWhiteElo v).black_title = r.black_title ∧
    (r.assignWhiteElo v).black_elo = r.black_elo ∧
    (r.assignWhiteElo v).black_elo_diff = r.black_elo_diff :=
  ⟨rfl, rfl, rfl, rfl, rfl, rfl, rfl, rfl, rfl, rfl, rfl, rfl, rfl, rfl⟩

end Morfi
